import Mathlib

/-!
Shallow embedding of the HR backend (Flask + SQLAlchemy RBAC service).

The data model follows src/models/user.py: User, Role, Permission rows plus
the two many-to-many association tables user_roles (user_id, role_id) and
role_permissions (role_id, permission_id).  Route handlers from
src/routes/auth.py, src/routes/user.py and src/routes/role.py are embedded as
pure functions from a database state (plus the request data) to an HTTP-style
response together with the successor state.  External collaborators (bcrypt
hashing, JWT minting, random token generation) are passed in as parameters:
the hashing library is a record of two functions, the random reset token is an
explicit argument, and the JWT layer is represented by the verified identity
it hands to the handler.
-/

namespace HR

/-- Permission row: id, unique name, description (src/models/user.py). -/
structure Permission where
  id : Nat
  name : String
  description : String
deriving DecidableEq, Repr

/-- Role row: id, unique name, description (src/models/user.py). -/
structure Role where
  id : Nat
  name : String
  description : String
deriving DecidableEq, Repr

/-- User row: id, unique username, unique email, stored password hash,
name fields and the active flag (src/models/user.py). -/
structure User where
  id : Nat
  username : String
  email : String
  password : String
  first_name : String
  last_name : String
  is_active : Bool
deriving DecidableEq, Repr

/-- Database state: the three entity tables and the two association tables
user_roles and role_permissions from src/models/user.py. -/
structure Db where
  users : List User
  roles : List Role
  permissions : List Permission
  user_roles : List (Nat × Nat)
  role_permissions : List (Nat × Nat)
deriving DecidableEq, Repr

/-- Model of User.query.get(id). -/
def Db.findUser (db : Db) (uid : Nat) : Option User :=
  db.users.find? (fun u => u.id == uid)

/-- Model of Role.query.get(id). -/
def Db.findRole (db : Db) (rid : Nat) : Option Role :=
  db.roles.find? (fun r => r.id == rid)

/-- Model of Permission.query.get(id). -/
def Db.findPermission (db : Db) (pid : Nat) : Option Permission :=
  db.permissions.find? (fun p => p.id == pid)

/-- Model of the ORM relationship user.roles: the roles joined through the
user_roles association table. -/
def Db.rolesOf (db : Db) (u : User) : List Role :=
  db.roles.filter (fun r => db.user_roles.contains (u.id, r.id))

/-- Model of the ORM relationship role.permissions: the permissions joined
through the role_permissions association table. -/
def Db.permissionsOfRole (db : Db) (r : Role) : List Permission :=
  db.permissions.filter (fun p => db.role_permissions.contains (r.id, p.id))

/-- Model of the ORM backref role.users: the users joined through the
user_roles association table. -/
def Db.usersOfRole (db : Db) (r : Role) : List User :=
  db.users.filter (fun u => db.user_roles.contains (u.id, r.id))

/-- Model of the ORM backref permission.roles: the roles joined through the
role_permissions association table. -/
def Db.rolesOfPermission (db : Db) (p : Permission) : List Role :=
  db.roles.filter (fun r => db.role_permissions.contains (r.id, p.id))

/-- User.has_permission (src/models/user.py lines 48-54): iterate the user's
roles, then each role's permissions, return true on the first name match. -/
def has_permission (db : Db) (u : User) (permission_name : String) : Bool :=
  (db.rolesOf u).any (fun role =>
    (db.permissionsOfRole role).any (fun p => p.name == permission_name))

/-- HTTP-style response: status code plus the JSON fields the handlers emit
(message, error, access_token, reset_token); absent fields are none. -/
structure Resp where
  status : Nat
  message : Option String
  error : Option String
  access_token : Option String
  reset_token : Option String
deriving DecidableEq, Repr

/-- Success response carrying only a message field. -/
def Resp.ok (s : Nat) (m : String) : Resp :=
  { status := s, message := some m, error := none,
    access_token := none, reset_token := none }

/-- Error response carrying only an error field. -/
def Resp.err (s : Nat) (e : String) : Resp :=
  { status := s, message := none, error := some e,
    access_token := none, reset_token := none }

/-- External bcrypt collaborator (flask_bcrypt): a hash derivation and a
hash check, abstracted as the two functions the model calls. -/
structure Bcrypt where
  generate_password_hash : String → String
  check_password_hash : String → String → Bool

/-- User.set_password applied to the user row with the given id: stores the
bcrypt hash of the plaintext (src/models/user.py lines 40-42). -/
def Db.setPassword (db : Db) (bc : Bcrypt) (uid : Nat) (plain : String) : Db :=
  { db with users := db.users.map (fun u =>
      if u.id == uid then { u with password := bc.generate_password_hash plain }
      else u) }

/-- Python truthiness of an optional string field of the request body:
a missing field and the empty string are both falsy. -/
def truthyS : Option String → Bool
  | none => false
  | some s => s != ""

/-- Lookup in the in-memory reset_tokens dict (token string to user id). -/
def dictGet (m : List (String × Nat)) (k : String) : Option Nat :=
  (m.find? (fun e => e.1 == k)).map (fun e => e.2)

/-- Assignment into the reset_tokens dict: overwrite an existing key,
otherwise append the new binding. -/
def dictInsert (m : List (String × Nat)) (k : String) (v : Nat) :
    List (String × Nat) :=
  if (m.find? (fun e => e.1 == k)).isSome then
    m.map (fun e => if e.1 == k then (k, v) else e)
  else m ++ [(k, v)]

/-- Deletion from the reset_tokens dict. -/
def dictDelete (m : List (String × Nat)) (k : String) : List (String × Nat) :=
  m.filter (fun e => !(e.1 == k))

/-- Request body of POST /auth/login. -/
structure LoginData where
  username : Option String
  password : Option String
deriving DecidableEq, Repr

/-- Lookup of the login user by username or email
(src/routes/auth.py lines 69-71). -/
def Db.findLoginUser (db : Db) (uname : String) : Option User :=
  db.users.find? (fun u => u.username == uname || u.email == uname)

/-- POST /auth/login (src/routes/auth.py lines 58-92).  The issued JWT is
modelled by the identity string it is bound to (str(user.id)). -/
def login (db : Db) (bc : Bcrypt) (data : LoginData) : Resp :=
  if !(truthyS data.username && truthyS data.password) then
    Resp.err 400 "Username and password are required"
  else
    match db.findLoginUser (data.username.getD "") with
    | none => Resp.err 401 "Invalid credentials"
    | some user =>
      if !(bc.check_password_hash user.password (data.password.getD "")) then
        Resp.err 401 "Invalid credentials"
      else if !user.is_active then
        Resp.err 401 "Account is deactivated"
      else
        { status := 200, message := some "Login successful", error := none,
          access_token := some (toString user.id), reset_token := none }

/-- POST /auth/forgot-password (src/routes/auth.py lines 194-221).  The
random 32-character token produced by secrets.choice is passed in as
fresh_token; the handler returns the response and the updated reset_tokens
dict. -/
def forgot_password (db : Db) (reset_tokens : List (String × Nat))
    (email : Option String) (fresh_token : String) :
    Resp × List (String × Nat) :=
  if !(truthyS email) then (Resp.err 400 "Email is required", reset_tokens)
  else
    match db.users.find? (fun u => u.email == email.getD "") with
    | none =>
      (Resp.ok 200 "If the email exists, a reset token has been generated",
       reset_tokens)
    | some user =>
      ({ status := 200, message := some "Password reset token generated",
         error := none, access_token := none, reset_token := some fresh_token },
       dictInsert reset_tokens fresh_token user.id)

/-- POST /auth/reset-password (src/routes/auth.py lines 223-252).  Returns
the response, the successor database and the successor reset_tokens dict.
The Python guard `if not user_id` also treats a stored id 0 as missing. -/
def reset_password (db : Db) (bc : Bcrypt) (reset_tokens : List (String × Nat))
    (token : Option String) (new_password : Option String) :
    Resp × Db × List (String × Nat) :=
  if !(truthyS token && truthyS new_password) then
    (Resp.err 400 "Token and new password are required", db, reset_tokens)
  else
    let tok := token.getD ""
    let user_id := dictGet reset_tokens tok
    if user_id.getD 0 == 0 then
      (Resp.err 400 "Invalid or expired token", db, reset_tokens)
    else
      match db.findUser (user_id.getD 0) with
      | none => (Resp.err 404 "User not found", db, reset_tokens)
      | some _ =>
        (Resp.ok 200 "Password reset successfully",
         db.setPassword bc (user_id.getD 0) (new_password.getD ""),
         dictDelete reset_tokens tok)

/-- Authorization middleware require_permission (src/routes/user.py and
src/routes/role.py, lines 9-26 in both): the JWT layer has already verified
the token and produced the identity; the middleware looks the user up,
answers 404 when absent, 403 when the permission is missing, and otherwise
runs the wrapped handler. -/
def require_permission (db : Db) (permission_name : String) (identity : Nat)
    (f : Db → Resp × Db) : Resp × Db :=
  match db.findUser identity with
  | none => (Resp.err 404 "User not found", db)
  | some user =>
    if has_permission db user permission_name then f db
    else (Resp.err 403 "Insufficient permissions", db)

/-- DELETE /users/(user_id) handler body (src/routes/user.py lines 159-178):
the self-deletion guard runs before the lookup; deleting the user row also
drops its user_roles association rows, as the ORM does for a secondary
table. -/
def delete_user (db : Db) (current_user_id : Nat) (user_id : Nat) : Resp × Db :=
  if current_user_id == user_id then
    (Resp.err 400 "Cannot delete your own account", db)
  else
    match db.findUser user_id with
    | none => (Resp.err 404 "Not found", db)
    | some _ =>
      (Resp.ok 200 "User deleted successfully",
       { db with users := db.users.filter (fun u => !(u.id == user_id)),
                 user_roles := db.user_roles.filter (fun e => !(e.1 == user_id)) })

/-- DELETE /users/(user_id) as routed: the handler wrapped in
require_permission for user_delete, both reading the same verified
identity. -/
def delete_user_route (db : Db) (identity : Nat) (user_id : Nat) : Resp × Db :=
  require_permission db "user_delete" identity
    (fun d => delete_user d identity user_id)

/-- POST /users/(user_id)/roles (src/routes/user.py lines 180-206).  The
body field role_id is optional and Python-falsy 0 counts as missing. -/
def assign_role_to_user (db : Db) (user_id : Nat) (role_id : Option Nat) :
    Resp × Db :=
  match db.findUser user_id with
  | none => (Resp.err 404 "Not found", db)
  | some user =>
    if role_id.getD 0 == 0 then (Resp.err 400 "role_id is required", db)
    else
      match db.findRole (role_id.getD 0) with
      | none => (Resp.err 404 "Not found", db)
      | some role =>
        if db.user_roles.contains (user.id, role.id) then
          (Resp.err 400 "User already has this role", db)
        else
          (Resp.ok 200
            ("Role " ++ role.name ++ " assigned to user " ++ user.username),
           { db with user_roles := db.user_roles ++ [(user.id, role.id)] })

/-- DELETE /users/(user_id)/roles/(role_id) (src/routes/user.py lines
208-229).  The association table has a composite primary key, so the edge is
unique and list removal is a filter. -/
def remove_role_from_user (db : Db) (user_id : Nat) (role_id : Nat) :
    Resp × Db :=
  match db.findUser user_id with
  | none => (Resp.err 404 "Not found", db)
  | some user =>
    match db.findRole role_id with
    | none => (Resp.err 404 "Not found", db)
    | some role =>
      if db.user_roles.contains (user.id, role.id) then
        (Resp.ok 200
          ("Role " ++ role.name ++ " removed from user " ++ user.username),
         { db with user_roles :=
             db.user_roles.filter (fun e => !(e == (user.id, role.id))) })
      else (Resp.err 400 "User does not have this role", db)

/-- POST /roles/(role_id)/permissions (src/routes/role.py lines 149-175). -/
def assign_permission_to_role (db : Db) (role_id : Nat)
    (permission_id : Option Nat) : Resp × Db :=
  match db.findRole role_id with
  | none => (Resp.err 404 "Not found", db)
  | some role =>
    if permission_id.getD 0 == 0 then
      (Resp.err 400 "permission_id is required", db)
    else
      match db.findPermission (permission_id.getD 0) with
      | none => (Resp.err 404 "Not found", db)
      | some permission =>
        if db.role_permissions.contains (role.id, permission.id) then
          (Resp.err 400 "Role already has this permission", db)
        else
          (Resp.ok 200
            ("Permission " ++ permission.name ++ " assigned to role " ++ role.name),
           { db with role_permissions :=
               db.role_permissions ++ [(role.id, permission.id)] })

/-- DELETE /roles/(role_id)/permissions/(permission_id)
(src/routes/role.py lines 177-198). -/
def remove_permission_from_role (db : Db) (role_id : Nat)
    (permission_id : Nat) : Resp × Db :=
  match db.findRole role_id with
  | none => (Resp.err 404 "Not found", db)
  | some role =>
    match db.findPermission permission_id with
    | none => (Resp.err 404 "Not found", db)
    | some permission =>
      if db.role_permissions.contains (role.id, permission.id) then
        (Resp.ok 200
          ("Permission " ++ permission.name ++ " removed from role " ++ role.name),
         { db with role_permissions :=
             db.role_permissions.filter (fun e => !(e == (role.id, permission.id))) })
      else (Resp.err 400 "Role does not have this permission", db)

/-- DELETE /roles/(role_id) (src/routes/role.py lines 127-147): the guard
`if role.users:` blocks the delete while any user holds the role; on success
the role row and its association rows are removed, the users themselves
never are. -/
def delete_role (db : Db) (role_id : Nat) : Resp × Db :=
  match db.findRole role_id with
  | none => (Resp.err 404 "Not found", db)
  | some role =>
    if !(db.usersOfRole role).isEmpty then
      (Resp.err 400
        ("Cannot delete role. It is assigned to " ++
          toString (db.usersOfRole role).length ++ " user(s)"), db)
    else
      (Resp.ok 200 "Role deleted successfully",
       { db with roles := db.roles.filter (fun r => !(r.id == role_id)),
                 user_roles := db.user_roles.filter (fun e => !(e.2 == role_id)),
                 role_permissions :=
                   db.role_permissions.filter (fun e => !(e.1 == role_id)) })

/-- DELETE /permissions/(permission_id) (src/routes/role.py lines 292-312):
the guard `if permission.roles:` blocks the delete while any role references
the permission. -/
def delete_permission (db : Db) (permission_id : Nat) : Resp × Db :=
  match db.findPermission permission_id with
  | none => (Resp.err 404 "Not found", db)
  | some permission =>
    if !(db.rolesOfPermission permission).isEmpty then
      (Resp.err 400
        ("Cannot delete permission. It is assigned to " ++
          toString (db.rolesOfPermission permission).length ++ " role(s)"), db)
    else
      (Resp.ok 200 "Permission deleted successfully",
       { db with permissions :=
                   db.permissions.filter (fun p => !(p.id == permission_id)),
                 role_permissions :=
                   db.role_permissions.filter
                     (fun e => !(e.2 == permission_id)) })

/-- Request body of PUT /users/(user_id); a none field is absent from the
JSON body. -/
structure UserUpdate where
  username : Option String
  email : Option String
  first_name : Option String
  last_name : Option String
  is_active : Option Bool
  password : Option String
  role_ids : Option (List Nat)
deriving DecidableEq, Repr

/-- Uniqueness guard of update_user: a submitted username already taken by a
different user (src/routes/user.py lines 117-122). -/
def usernameTaken (db : Db) (uid : Nat) : Option String → Bool
  | none => false
  | some un => db.users.any (fun v => v.username == un && !(v.id == uid))

/-- Uniqueness guard of update_user: a submitted email already taken by a
different user (src/routes/user.py lines 124-129). -/
def emailTaken (db : Db) (uid : Nat) : Option String → Bool
  | none => false
  | some em => db.users.any (fun v => v.email == em && !(v.id == uid))

/-- PUT /users/(user_id) (src/routes/user.py lines 108-157).  The uniqueness
checks query the table and do not depend on the in-session mutations, so
they are evaluated first in source order; an error response leaves the
committed state unchanged (no commit happens before the return).  A role_ids
field replaces the whole association set with the existing roles whose ids
are listed. -/
def update_user (db : Db) (bc : Bcrypt) (user_id : Nat) (data : UserUpdate) :
    Resp × Db :=
  match db.findUser user_id with
  | none => (Resp.err 404 "Not found", db)
  | some user0 =>
    if usernameTaken db user_id data.username then
      (Resp.err 400 "Username already exists", db)
    else if emailTaken db user_id data.email then
      (Resp.err 400 "Email already exists", db)
    else
      let user1 :=
        { user0 with
          username := data.username.getD user0.username,
          email := data.email.getD user0.email,
          first_name := data.first_name.getD user0.first_name,
          last_name := data.last_name.getD user0.last_name,
          is_active := data.is_active.getD user0.is_active,
          password :=
            match data.password with
            | some pw => if pw != "" then bc.generate_password_hash pw
                         else user0.password
            | none => user0.password }
      let new_user_roles :=
        match data.role_ids with
        | none => db.user_roles
        | some rids =>
          db.user_roles.filter (fun e => !(e.1 == user_id)) ++
            (db.roles.filter (fun r => rids.contains r.id)).map
              (fun r => (user_id, r.id))
      (Resp.ok 200 "User updated successfully",
       { db with users := db.users.map (fun v => if v.id == user_id then user1 else v),
                 user_roles := new_user_roles })

/-- Request body of PUT /roles/(role_id). -/
structure RoleUpdate where
  name : Option String
  description : Option String
  permission_ids : Option (List Nat)
deriving DecidableEq, Repr

/-- Uniqueness guard of update_role: a submitted role name already taken by
a different role (src/routes/role.py lines 101-106). -/
def roleNameTaken (db : Db) (rid : Nat) : Option String → Bool
  | none => false
  | some nm => db.roles.any (fun r => r.name == nm && !(r.id == rid))

/-- PUT /roles/(role_id) (src/routes/role.py lines 92-125).  A
permission_ids field replaces the whole association set with the existing
permissions whose ids are listed. -/
def update_role (db : Db) (role_id : Nat) (data : RoleUpdate) : Resp × Db :=
  match db.findRole role_id with
  | none => (Resp.err 404 "Not found", db)
  | some role0 =>
    if roleNameTaken db role_id data.name then
      (Resp.err 400 "Role name already exists", db)
    else
      let role1 :=
        { role0 with
          name := data.name.getD role0.name,
          description := data.description.getD role0.description }
      let new_role_permissions :=
        match data.permission_ids with
        | none => db.role_permissions
        | some pids =>
          db.role_permissions.filter (fun e => !(e.1 == role_id)) ++
            (db.permissions.filter (fun p => pids.contains p.id)).map
              (fun p => (role_id, p.id))
      (Resp.ok 200 "Role updated successfully",
       { db with roles := db.roles.map (fun r => if r.id == role_id then role1 else r),
                 role_permissions := new_role_permissions })

/-! ## Concrete fixtures

Fixtures used by witnesses and counterexamples: a bcrypt stand-in (the real
library is an external collaborator, the theorems quantify over it) and a
small populated database mirroring the seed data shape. -/

/-- Deterministic stand-in for the external bcrypt collaborator. -/
def test_bcrypt : Bcrypt :=
  { generate_password_hash := fun s => "hash:" ++ s,
    check_password_hash := fun h s => h == "hash:" ++ s }

/-- Fixture permission user_read (id 1). -/
def perm_user_read : Permission := { id := 1, name := "user_read", description := "" }

/-- Fixture permission user_delete (id 2). -/
def perm_user_delete : Permission := { id := 2, name := "user_delete", description := "" }

/-- Fixture permission user_write (id 3). -/
def perm_user_write : Permission := { id := 3, name := "user_write", description := "" }

/-- Fixture permission role_write (id 4). -/
def perm_role_write : Permission := { id := 4, name := "role_write", description := "" }

/-- Fixture permission attached to no role (id 5). -/
def perm_free : Permission := { id := 5, name := "report_read", description := "" }

/-- Fixture role Admin (id 1), holder of permissions 1-4. -/
def role_admin : Role := { id := 1, name := "Admin", description := "" }

/-- Fixture role Employee (id 2), holder of permission 1. -/
def role_emp : Role := { id := 2, name := "Employee", description := "" }

/-- Fixture role Intern (id 3), with no permissions and no users. -/
def role_intern : Role := { id := 3, name := "Intern", description := "" }

/-- Fixture user admin (id 1), active, holding the Admin role. -/
def user_admin : User :=
  { id := 1, username := "admin", email := "admin@example.com",
    password := "hash:root", first_name := "", last_name := "", is_active := true }

/-- Fixture user alice (id 2), active, holding the Employee role. -/
def user_alice : User :=
  { id := 2, username := "alice", email := "alice@example.com",
    password := "hash:pw", first_name := "", last_name := "", is_active := true }

/-- Fixture user bob (id 3), deactivated, with correct-password hash. -/
def user_bob : User :=
  { id := 3, username := "bob", email := "bob@example.com",
    password := "hash:pw", first_name := "", last_name := "", is_active := false }

/-- Fixture database with the users, roles, permissions and associations
above. -/
def sample_db : Db :=
  { users := [user_admin, user_alice, user_bob],
    roles := [role_admin, role_emp, role_intern],
    permissions := [perm_user_read, perm_user_delete, perm_user_write,
                    perm_role_write, perm_free],
    user_roles := [(1, 1), (2, 2)],
    role_permissions := [(1, 1), (1, 2), (1, 3), (1, 4), (2, 1)] }

/-- Fixture empty database. -/
def empty_db : Db :=
  { users := [], roles := [], permissions := [],
    user_roles := [], role_permissions := [] }

/-- Trivial wrapped handler for exercising the middleware. -/
def noop_handler : Db → Resp × Db := fun d => (Resp.ok 200 "handler ran", d)

/-! ## Helper lemmas -/

/-- Searching for p in a list from which every p-element was filtered out
finds nothing. -/
theorem find?_filter_not_self {α : Type} (p : α → Bool) (l : List α) :
    (l.filter (fun x => !(p x))).find? p = none := by
  rw [List.find?_eq_none]
  intro x hx
  have h := List.mem_filter.mp hx
  simp at h ⊢
  exact h.2

/-- Mapping a predicate-preserving function through a list commutes with
find?. -/
theorem find?_map_preserving {α : Type} (p : α → Bool) (f : α → α) (l : List α)
    (hf : ∀ x, p (f x) = p x) :
    (l.map f).find? p = (l.find? p).map f := by
  rw [List.find?_map]
  have hc : (p ∘ f) = p := by funext x; exact hf x
  rw [hc]

/-- setPassword rewrites exactly the password field of the looked-up user. -/
theorem findUser_setPassword (db : Db) (bc : Bcrypt) (uid : Nat) (npw : String)
    (user : User) (h : db.findUser uid = some user) :
    (db.setPassword bc uid npw).findUser uid =
      some { user with password := bc.generate_password_hash npw } := by
  unfold Db.findUser at h ⊢
  have hid := List.find?_some h
  simp only [] at hid
  unfold Db.setPassword
  rw [find?_map_preserving]
  · rw [h]
    have hid2 : user.id = uid := by simpa using hid
    simp [hid2]
  · intro x
    by_cases hx : (x.id == uid) = true
    · simp [hx]
    · simp [hx]

/-- Deleting a key from the reset-token dict makes its lookup fail. -/
theorem dictGet_dictDelete (m : List (String × Nat)) (k : String) :
    dictGet (dictDelete m k) k = none := by
  unfold dictGet dictDelete
  rw [find?_filter_not_self (fun (e : String × Nat) => e.1 == k) m]
  rfl

/-- C1: has_permission returns true iff some role in the user's role set has a
permission named as asked, i.e. the effective permission set is the union of
the permission sets of the user's roles (no precedence, no negation). -/
theorem C1_has_permission_iff_some_role_grants (db : Db) (u : User) (p : String) :
    has_permission db u p = true ↔
      ∃ r ∈ db.rolesOf u, ∃ q ∈ db.permissionsOfRole r, q.name = p := by
  simp [has_permission, List.any_eq_true]

/-- C2: evidence that forgot-password does NOT behave as the claim states:
for a known email the handler answers with a different message than for an
unknown one and echoes the fresh reset token in the response body, so a
caller can tell whether the email corresponds to an existing account. -/
theorem C2_forgot_password_distinguishes_known_email :
    (forgot_password sample_db [] (some "alice@example.com") "T0").1 ≠
      (forgot_password sample_db [] (some "ghost@example.com") "T0").1 ∧
    (forgot_password sample_db [] (some "alice@example.com") "T0").1.reset_token =
      some "T0" ∧
    (forgot_password sample_db [] (some "alice@example.com") "T0").1.message =
      some "Password reset token generated" ∧
    (forgot_password sample_db [] (some "ghost@example.com") "T0").1.message =
      some "If the email exists, a reset token has been generated" := by
  refine ⟨?_, ?_, ?_, ?_⟩ <;> decide

/-- C3 counterexample: with an empty user table, a verified identity that
resolves to no user gets a 404 from the middleware, not the 401 class the
claim asserts. -/
theorem C3_counterexample_absent_user_gets_404 :
    (require_permission empty_db "user_read" 1 noop_handler).1.status = 404 ∧
    ¬ (require_permission empty_db "user_read" 1 noop_handler).1.status = 401 := by
  refine ⟨?_, ?_⟩ <;> decide

/-- C3 amended: in the authorization middleware, when the token verifies but
no User exists for the verified identity the response is NotFound
(404, "User not found"); an authenticated user lacking the required
permission receives Forbidden (403). -/
theorem C3_amended_absent_user_404_missing_permission_403
    (db : Db) (pname : String) (identity : Nat) (f : Db → Resp × Db) :
    (db.findUser identity = none →
      require_permission db pname identity f =
        (Resp.err 404 "User not found", db)) ∧
    (∀ u, db.findUser identity = some u →
      has_permission db u pname = false →
      require_permission db pname identity f =
        (Resp.err 403 "Insufficient permissions", db)) := by
  constructor
  · intro h
    simp [require_permission, h]
  · intro u hu hp
    simp [require_permission, hu, hp]

/-- C3 witness: the amended middleware behavior at concrete inputs — identity
1 over the empty database (404) and alice asking for role_write (403). -/
theorem C3_amended_witness :
    require_permission empty_db "user_read" 1 noop_handler =
      (Resp.err 404 "User not found", empty_db) ∧
    require_permission sample_db "role_write" 2 noop_handler =
      (Resp.err 403 "Insufficient permissions", sample_db) :=
  ⟨(C3_amended_absent_user_404_missing_permission_403 empty_db "user_read" 1
      noop_handler).1 (by decide),
   (C3_amended_absent_user_404_missing_permission_403 sample_db "role_write" 2
      noop_handler).2 user_alice (by decide) (by decide)⟩

/-- C4: deleteRole fails with the referential-conflict error carrying the
dependent user count whenever a user still holds the role, and
deletePermission fails likewise while a role still references the
permission; in both error cases the state is unchanged (nothing is deleted,
nothing cascades), and once no dependent is left the delete succeeds and
removes only the entity itself. -/
theorem C4_referential_delete_guards (db : Db) (rid pid : Nat) :
    (∀ role, db.findRole rid = some role → db.usersOfRole role ≠ [] →
      delete_role db rid =
        (Resp.err 400 ("Cannot delete role. It is assigned to " ++
          toString (db.usersOfRole role).length ++ " user(s)"), db)) ∧
    (∀ role, db.findRole rid = some role → db.usersOfRole role = [] →
      (delete_role db rid).1 = Resp.ok 200 "Role deleted successfully" ∧
      (delete_role db rid).2.findRole rid = none ∧
      (delete_role db rid).2.users = db.users) ∧
    (∀ permission, db.findPermission pid = some permission →
      db.rolesOfPermission permission ≠ [] →
      delete_permission db pid =
        (Resp.err 400 ("Cannot delete permission. It is assigned to " ++
          toString (db.rolesOfPermission permission).length ++ " role(s)"), db)) ∧
    (∀ permission, db.findPermission pid = some permission →
      db.rolesOfPermission permission = [] →
      (delete_permission db pid).1 = Resp.ok 200 "Permission deleted successfully" ∧
      (delete_permission db pid).2.findPermission pid = none ∧
      (delete_permission db pid).2.roles = db.roles) := by
  refine ⟨?_, ?_, ?_, ?_⟩
  · intro role h1 h2
    have hb : (db.usersOfRole role).isEmpty = false := by
      cases hcase : db.usersOfRole role with
      | nil => exact absurd hcase h2
      | cons a t => rfl
    simp [delete_role, h1, hb]
  · intro role h1 h2
    have hb : (db.usersOfRole role).isEmpty = true := by rw [h2]; rfl
    refine ⟨?_, ?_, ?_⟩
    · simp [delete_role, h1, hb]
    · simp only [delete_role, h1, hb, Bool.not_true]
      simp only [Db.findRole]
      exact find?_filter_not_self (fun r => r.id == rid) db.roles
    · simp [delete_role, h1, hb]
  · intro permission h1 h2
    have hb : (db.rolesOfPermission permission).isEmpty = false := by
      cases hcase : db.rolesOfPermission permission with
      | nil => exact absurd hcase h2
      | cons a t => rfl
    simp [delete_permission, h1, hb]
  · intro permission h1 h2
    have hb : (db.rolesOfPermission permission).isEmpty = true := by rw [h2]; rfl
    refine ⟨?_, ?_, ?_⟩
    · simp [delete_permission, h1, hb]
    · simp only [delete_permission, h1, hb, Bool.not_true]
      simp only [Db.findPermission]
      exact find?_filter_not_self (fun p => p.id == pid) db.permissions
    · simp [delete_permission, h1, hb]

/-- C4 witness: in the fixture database deleting role 1 (held by user 1) and
permission 1 (on roles 1 and 2) is blocked with the dependent counts, while
deleting the unreferenced role 3 and permission 5 succeeds. -/
theorem C4_witness :
    delete_role sample_db 1 =
      (Resp.err 400 ("Cannot delete role. It is assigned to " ++
        toString (sample_db.usersOfRole role_admin).length ++ " user(s)"),
       sample_db) ∧
    (delete_role sample_db 3).1 = Resp.ok 200 "Role deleted successfully" ∧
    (delete_role sample_db 3).2.findRole 3 = none ∧
    delete_permission sample_db 1 =
      (Resp.err 400 ("Cannot delete permission. It is assigned to " ++
        toString (sample_db.rolesOfPermission perm_user_read).length ++ " role(s)"),
       sample_db) ∧
    (delete_permission sample_db 5).1 = Resp.ok 200 "Permission deleted successfully" ∧
    (delete_permission sample_db 5).2.findPermission 5 = none :=
  ⟨(C4_referential_delete_guards sample_db 1 1).1 role_admin (by decide) (by decide),
   ((C4_referential_delete_guards sample_db 3 5).2.1 role_intern (by decide) (by decide)).1,
   ((C4_referential_delete_guards sample_db 3 5).2.1 role_intern (by decide) (by decide)).2.1,
   (C4_referential_delete_guards sample_db 1 1).2.2.1 perm_user_read (by decide) (by decide),
   ((C4_referential_delete_guards sample_db 3 5).2.2.2 perm_free (by decide) (by decide)).1,
   ((C4_referential_delete_guards sample_db 3 5).2.2.2 perm_free (by decide) (by decide)).2.1⟩

/-- C5: every association mutation is idempotent-guarded: assigning a role
the user already holds, or a permission the role already holds, fails with
the duplicate-association 400; removing a role the user does not hold, or a
permission the role does not hold, fails with the missing-association 400;
in every error case the database is returned unchanged (no silent no-op). -/
theorem C5_association_mutation_guards (db : Db) (uid rid pid : Nat) :
    (∀ user role, db.findUser uid = some user → rid ≠ 0 →
      db.findRole rid = some role →
      db.user_roles.contains (user.id, role.id) = true →
      assign_role_to_user db uid (some rid) =
        (Resp.err 400 "User already has this role", db)) ∧
    (∀ user role, db.findUser uid = some user → db.findRole rid = some role →
      db.user_roles.contains (user.id, role.id) = false →
      remove_role_from_user db uid rid =
        (Resp.err 400 "User does not have this role", db)) ∧
    (∀ role permission, db.findRole rid = some role → pid ≠ 0 →
      db.findPermission pid = some permission →
      db.role_permissions.contains (role.id, permission.id) = true →
      assign_permission_to_role db rid (some pid) =
        (Resp.err 400 "Role already has this permission", db)) ∧
    (∀ role permission, db.findRole rid = some role →
      db.findPermission pid = some permission →
      db.role_permissions.contains (role.id, permission.id) = false →
      remove_permission_from_role db rid pid =
        (Resp.err 400 "Role does not have this permission", db)) := by
  refine ⟨?_, ?_, ?_, ?_⟩
  · intro user role h1 h2 h3 h4
    have hz : (rid == 0) = false := beq_eq_false_iff_ne.mpr h2
    have hm : (user.id, role.id) ∈ db.user_roles := by simpa using h4
    simp [assign_role_to_user, h1, hz, h3, hm]
  · intro user role h1 h2 h3
    have hm : (user.id, role.id) ∉ db.user_roles := by simpa using h3
    simp [remove_role_from_user, h1, h2, hm]
  · intro role permission h1 h2 h3 h4
    have hz : (pid == 0) = false := beq_eq_false_iff_ne.mpr h2
    have hm : (role.id, permission.id) ∈ db.role_permissions := by simpa using h4
    simp [assign_permission_to_role, h1, hz, h3, hm]
  · intro role permission h1 h2 h3
    have hm : (role.id, permission.id) ∉ db.role_permissions := by simpa using h3
    simp [remove_permission_from_role, h1, h2, hm]

/-- C5 witness: in the fixture database, re-assigning role 2 to alice and
permission 1 to role 2 fails as duplicates, while removing role 1 from alice
and permission 2 from role 2 fails as missing, all leaving the state as it
was. -/
theorem C5_witness :
    assign_role_to_user sample_db 2 (some 2) =
      (Resp.err 400 "User already has this role", sample_db) ∧
    remove_role_from_user sample_db 2 1 =
      (Resp.err 400 "User does not have this role", sample_db) ∧
    assign_permission_to_role sample_db 2 (some 1) =
      (Resp.err 400 "Role already has this permission", sample_db) ∧
    remove_permission_from_role sample_db 2 2 =
      (Resp.err 400 "Role does not have this permission", sample_db) :=
  ⟨(C5_association_mutation_guards sample_db 2 2 1).1 user_alice role_emp
      (by decide) (by decide) (by decide) (by decide),
   (C5_association_mutation_guards sample_db 2 1 1).2.1 user_alice role_admin
      (by decide) (by decide) (by decide),
   (C5_association_mutation_guards sample_db 0 2 1).2.2.1 role_emp perm_user_read
      (by decide) (by decide) (by decide) (by decide),
   (C5_association_mutation_guards sample_db 0 2 2).2.2.2 role_emp perm_user_delete
      (by decide) (by decide) (by decide)⟩
/-- C6: login issues a token exactly when the user lookup succeeds, the
bcrypt check passes and the account is active; correct credentials on a
deactivated account get the 401 deactivation error with no token; an unknown
user and a wrong password produce the identical generic 401, revealing
nothing about account existence. -/
theorem C6_login_requires_active_user (db : Db) (bc : Bcrypt) (data : LoginData)
    (hu : truthyS data.username = true) (hp : truthyS data.password = true) :
    ((login db bc data).access_token.isSome = true ↔
      ∃ u, db.findLoginUser (data.username.getD "") = some u ∧
        bc.check_password_hash u.password (data.password.getD "") = true ∧
        u.is_active = true) ∧
    (∀ u, db.findLoginUser (data.username.getD "") = some u →
      bc.check_password_hash u.password (data.password.getD "") = true →
      u.is_active = false →
      login db bc data = Resp.err 401 "Account is deactivated") ∧
    (db.findLoginUser (data.username.getD "") = none →
      login db bc data = Resp.err 401 "Invalid credentials") ∧
    (∀ u, db.findLoginUser (data.username.getD "") = some u →
      bc.check_password_hash u.password (data.password.getD "") = false →
      login db bc data = Resp.err 401 "Invalid credentials") := by
  refine ⟨?_, ?_, ?_, ?_⟩
  · cases hfind : db.findLoginUser (data.username.getD "") with
    | none => simp [login, hu, hp, hfind, Resp.err]
    | some u =>
      cases hchk : bc.check_password_hash u.password (data.password.getD "") <;>
        cases hact : u.is_active <;>
          simp [login, hu, hp, hfind, hchk, hact, Resp.err]
  · intro u hfind hchk hact
    simp [login, hu, hp, hfind, hchk, hact]
  · intro hfind
    simp [login, hu, hp, hfind]
  · intro u hfind hchk
    simp [login, hu, hp, hfind, hchk]

/-- C6 witness: with the fixture database and bcrypt stand-in, alice with the
right password gets a token, deactivated bob with the right password gets the
401 deactivation error, and both an unknown username and a wrong password
get the identical generic 401. -/
theorem C6_witness :
    (login sample_db test_bcrypt { username := some "alice", password := some "pw" }).access_token.isSome = true ∧
    login sample_db test_bcrypt { username := some "bob", password := some "pw" } =
      Resp.err 401 "Account is deactivated" ∧
    login sample_db test_bcrypt { username := some "ghost", password := some "pw" } =
      Resp.err 401 "Invalid credentials" ∧
    login sample_db test_bcrypt { username := some "alice", password := some "wrong" } =
      Resp.err 401 "Invalid credentials" :=
  ⟨((C6_login_requires_active_user sample_db test_bcrypt
      { username := some "alice", password := some "pw" } (by decide) (by decide)).1).mpr
      ⟨user_alice, by decide, by decide, by decide⟩,
   (C6_login_requires_active_user sample_db test_bcrypt
      { username := some "bob", password := some "pw" } (by decide) (by decide)).2.1
      user_bob (by decide) (by decide) (by decide),
   (C6_login_requires_active_user sample_db test_bcrypt
      { username := some "ghost", password := some "pw" } (by decide) (by decide)).2.2.1
      (by decide),
   (C6_login_requires_active_user sample_db test_bcrypt
      { username := some "alice", password := some "wrong" } (by decide) (by decide)).2.2.2
      user_alice (by decide) (by decide)⟩
/-- C7: reset tokens are single-use: an absent token fails with the
invalid-or-expired 400 and changes nothing; a present token whose user
exists sets that user's password to the bcrypt hash of the new password,
removes the token from the mapping, and a second consume of the same token
fails with the invalid-or-expired 400. -/
theorem C7_reset_token_single_use (db : Db) (bc : Bcrypt)
    (tokens : List (String × Nat)) (tok npw : String)
    (htok : tok ≠ "") (hnpw : npw ≠ "") :
    (dictGet tokens tok = none →
      reset_password db bc tokens (some tok) (some npw) =
        (Resp.err 400 "Invalid or expired token", db, tokens)) ∧
    (∀ uid user, dictGet tokens tok = some uid → uid ≠ 0 →
      db.findUser uid = some user →
      reset_password db bc tokens (some tok) (some npw) =
        (Resp.ok 200 "Password reset successfully",
         db.setPassword bc uid npw, dictDelete tokens tok) ∧
      (db.setPassword bc uid npw).findUser uid =
        some { user with password := bc.generate_password_hash npw } ∧
      dictGet (dictDelete tokens tok) tok = none ∧
      (∀ npw2, npw2 ≠ "" →
        reset_password (db.setPassword bc uid npw) bc (dictDelete tokens tok)
            (some tok) (some npw2) =
          (Resp.err 400 "Invalid or expired token",
           db.setPassword bc uid npw, dictDelete tokens tok))) := by
  have ht : truthyS (some tok) = true := by simpa [truthyS] using htok
  have hnp : truthyS (some npw) = true := by simpa [truthyS] using hnpw
  constructor
  · intro h
    simp [reset_password, ht, hnp, h]
  · intro uid user h1 h2 h3
    have hz : (uid == 0) = false := beq_eq_false_iff_ne.mpr h2
    refine ⟨?_, findUser_setPassword db bc uid npw user h3,
            dictGet_dictDelete tokens tok, ?_⟩
    · simp [reset_password, ht, hnp, h1, hz, h3]
    · intro npw2 hnpw2
      have hnp2 : truthyS (some npw2) = true := by simpa [truthyS] using hnpw2
      simp [reset_password, ht, hnp2, dictGet_dictDelete]

/-- C7 witness: consuming token tok1 for alice in the fixture database
succeeds, rewrites her stored hash, deletes the token, and a second consume
with the same token fails; presenting a token when the mapping is empty
fails outright. -/
theorem C7_witness :
    reset_password sample_db test_bcrypt [] (some "tok1") (some "newpw") =
      (Resp.err 400 "Invalid or expired token", sample_db, []) ∧
    reset_password sample_db test_bcrypt [("tok1", 2)] (some "tok1") (some "newpw") =
      (Resp.ok 200 "Password reset successfully",
       sample_db.setPassword test_bcrypt 2 "newpw", dictDelete [("tok1", 2)] "tok1") ∧
    dictGet (dictDelete [("tok1", 2)] "tok1") "tok1" = none ∧
    reset_password (sample_db.setPassword test_bcrypt 2 "newpw") test_bcrypt
        (dictDelete [("tok1", 2)] "tok1") (some "tok1") (some "again") =
      (Resp.err 400 "Invalid or expired token",
       sample_db.setPassword test_bcrypt 2 "newpw", dictDelete [("tok1", 2)] "tok1") := by
  have h := (C7_reset_token_single_use sample_db test_bcrypt [("tok1", 2)]
      "tok1" "newpw" (by decide) (by decide)).2 2 user_alice
      (by decide) (by decide) (by decide)
  exact ⟨(C7_reset_token_single_use sample_db test_bcrypt [] "tok1" "newpw"
      (by decide) (by decide)).1 (by decide),
    h.1, h.2.2.1, h.2.2.2 "again" (by decide)⟩

/-- C8: a caller holding user_delete who targets the caller's own id is
rejected with the 400 self-deletion error and the state is unchanged, while
the same caller deleting a different existing user succeeds and removes that
user. -/
theorem C8_self_deletion_guard (db : Db) (identity target : Nat) :
    (∀ u, db.findUser identity = some u →
      has_permission db u "user_delete" = true →
      delete_user_route db identity identity =
        (Resp.err 400 "Cannot delete your own account", db)) ∧
    (∀ u t, db.findUser identity = some u →
      has_permission db u "user_delete" = true →
      identity ≠ target → db.findUser target = some t →
      (delete_user_route db identity target).1 =
        Resp.ok 200 "User deleted successfully" ∧
      (delete_user_route db identity target).2.findUser target = none) := by
  constructor
  · intro u h1 h2
    simp [delete_user_route, require_permission, delete_user, h1, h2]
  · intro u t h1 h2 h3 h4
    have hne : (identity == target) = false := beq_eq_false_iff_ne.mpr h3
    constructor
    · simp [delete_user_route, require_permission, delete_user, h1, h2, hne, h4]
    · simp only [delete_user_route, require_permission, h1, h2, if_true]
      simp only [delete_user, hne, h4, Bool.false_eq_true, if_false]
      simp only [Db.findUser]
      exact find?_filter_not_self (fun v => v.id == target) db.users

/-- C8 witness: in the fixture database the admin (id 1, holding
user_delete) cannot delete account 1 but does delete alice (id 2). -/
theorem C8_witness :
    delete_user_route sample_db 1 1 =
      (Resp.err 400 "Cannot delete your own account", sample_db) ∧
    (delete_user_route sample_db 1 2).1 = Resp.ok 200 "User deleted successfully" ∧
    (delete_user_route sample_db 1 2).2.findUser 2 = none := by
  have h := (C8_self_deletion_guard sample_db 1 2).2 user_admin user_alice
      (by decide) (by decide) (by decide) (by decide)
  exact ⟨(C8_self_deletion_guard sample_db 1 1).1 user_admin (by decide) (by decide),
    h.1, h.2⟩

/-- C9: an admin update carrying role_ids (resp. permission_ids) replaces
the whole association set: the update answers 200 whatever the previous
associations were, the new edge set is exactly the listed ids that match an
existing entity (unknown ids are dropped silently), and previously-held
associations that are not listed are gone. -/
theorem C9_bulk_update_replaces_associations (db : Db) (bc : Bcrypt)
    (uid rid : Nat) (data : UserUpdate) (rdata : RoleUpdate) :
    (∀ user rids, db.findUser uid = some user →
      data.username = none → data.email = none → data.role_ids = some rids →
      (update_user db bc uid data).1 = Resp.ok 200 "User updated successfully" ∧
      (∀ r2, ((uid, r2) ∈ (update_user db bc uid data).2.user_roles ↔
        (r2 ∈ rids ∧ ∃ r ∈ db.roles, r.id = r2)))) ∧
    (∀ role pids, db.findRole rid = some role →
      rdata.name = none → rdata.permission_ids = some pids →
      (update_role db rid rdata).1 = Resp.ok 200 "Role updated successfully" ∧
      (∀ p2, ((rid, p2) ∈ (update_role db rid rdata).2.role_permissions ↔
        (p2 ∈ pids ∧ ∃ p ∈ db.permissions, p.id = p2)))) := by
  constructor
  · intro user rids h1 h2 h3 h4
    constructor
    · simp [update_user, h1, h2, h3, h4, usernameTaken, emailTaken]
    · intro r2
      simp [update_user, h1, h2, h3, h4, usernameTaken, emailTaken,
            List.mem_append, List.mem_filter, List.mem_map]
      constructor
      · rintro ⟨r, ⟨hrmem, hrids⟩, hrid⟩
        exact ⟨hrid ▸ hrids, r, hrmem, hrid⟩
      · rintro ⟨hrids, r, hrmem, hrid⟩
        exact ⟨r, ⟨hrmem, hrid ▸ hrids⟩, hrid⟩
  · intro role pids h1 h2 h3
    constructor
    · simp [update_role, h1, h2, h3, roleNameTaken]
    · intro p2
      simp [update_role, h1, h2, h3, roleNameTaken,
            List.mem_append, List.mem_filter, List.mem_map]
      constructor
      · rintro ⟨p, ⟨hpmem, hpids⟩, hpid⟩
        exact ⟨hpid ▸ hpids, p, hpmem, hpid⟩
      · rintro ⟨hpids, p, hpmem, hpid⟩
        exact ⟨p, ⟨hpmem, hpid ▸ hpids⟩, hpid⟩

/-- C9 witness: updating alice with role_ids [1, 99] answers 200 and the
resulting association set contains role 1 (previously absent, no
duplicate-association error), has dropped unknown id 99 and the omitted
role 2; updating role 2 with permission_ids [2, 3] behaves alike. -/
theorem C9_witness :
    (update_user sample_db test_bcrypt 2
      { username := none, email := none, first_name := none, last_name := none,
        is_active := none, password := none, role_ids := some [1, 99] }).1 =
      Resp.ok 200 "User updated successfully" ∧
    ((2, 1) ∈ (update_user sample_db test_bcrypt 2
      { username := none, email := none, first_name := none, last_name := none,
        is_active := none, password := none, role_ids := some [1, 99] }).2.user_roles ↔
      (1 ∈ [1, 99] ∧ ∃ r ∈ sample_db.roles, r.id = 1)) ∧
    (update_role sample_db 2
      { name := none, description := none, permission_ids := some [2, 3] }).1 =
      Resp.ok 200 "Role updated successfully" ∧
    ((2, 3) ∈ (update_role sample_db 2
      { name := none, description := none,
        permission_ids := some [2, 3] }).2.role_permissions ↔
      (3 ∈ [2, 3] ∧ ∃ p ∈ sample_db.permissions, p.id = 3)) := by
  have h := C9_bulk_update_replaces_associations sample_db test_bcrypt 2 2
      { username := none, email := none, first_name := none, last_name := none,
        is_active := none, password := none, role_ids := some [1, 99] }
      { name := none, description := none, permission_ids := some [2, 3] }
  have hu := h.1 user_alice [1, 99] (by decide) rfl rfl rfl
  have hr := h.2 role_emp [2, 3] (by decide) rfl rfl
  exact ⟨hu.1, hu.2 1, hr.1, hr.2 3⟩

/-- C10: a reset token that maps to a vanished user id yields the 404
user-not-found error and the token stays in the mapping, so it can be
presented again; more generally, on every non-200 outcome the reset-token
mapping is unchanged (a token is consumed only by a fully successful
reset). -/
theorem C10_reset_orphan_token_survives (db : Db) (bc : Bcrypt)
    (tokens : List (String × Nat)) (tok npw : String)
    (htok : tok ≠ "") (hnpw : npw ≠ "") :
    (∀ uid, dictGet tokens tok = some uid → uid ≠ 0 →
      db.findUser uid = none →
      reset_password db bc tokens (some tok) (some npw) =
        (Resp.err 404 "User not found", db, tokens)) ∧
    (∀ tk np, (reset_password db bc tokens tk np).1.status ≠ 200 →
      (reset_password db bc tokens tk np).2.2 = tokens) := by
  constructor
  · intro uid h1 h2 h3
    have ht : truthyS (some tok) = true := by simpa [truthyS] using htok
    have hnp : truthyS (some npw) = true := by simpa [truthyS] using hnpw
    have hz : (uid == 0) = false := beq_eq_false_iff_ne.mpr h2
    simp [reset_password, ht, hnp, h1, hz, h3]
  · intro tk np
    have key : (reset_password db bc tokens tk np).1.status = 200 ∨
        (reset_password db bc tokens tk np).2.2 = tokens := by
      by_cases hc : (truthyS tk && truthyS np) = true
      · cases huid : dictGet tokens (tk.getD "") with
        | none => right; simp [reset_password, hc, huid]
        | some uid =>
          by_cases hz : (uid == 0) = true
          · right; simp [reset_password, hc, huid, hz]
          · have hz2 : (uid == 0) = false := by simpa using hz
            cases hfind : db.findUser uid with
            | none => right; simp [reset_password, hc, huid, hz2, hfind]
            | some u2 => left; simp [reset_password, hc, huid, hz2, hfind, Resp.ok]
      · have hc2 : (truthyS tk && truthyS np) = false := by simpa using hc
        right; simp [reset_password, hc2]
    intro h
    rcases key with hk | hk
    · exact absurd hk h
    · exact hk

/-- C10 witness: token tok9 maps to the nonexistent user id 99, the reset
answers 404 and the mapping still holds tok9 afterwards. -/
theorem C10_witness :
    reset_password sample_db test_bcrypt [("tok9", 99)] (some "tok9") (some "npw") =
      (Resp.err 404 "User not found", sample_db, [("tok9", 99)]) ∧
    (reset_password sample_db test_bcrypt [("tok9", 99)] (some "tok9") (some "npw")).2.2 =
      [("tok9", 99)] :=
  ⟨(C10_reset_orphan_token_survives sample_db test_bcrypt [("tok9", 99)]
      "tok9" "npw" (by decide) (by decide)).1 99 (by decide) (by decide) (by decide),
   (C10_reset_orphan_token_survives sample_db test_bcrypt [("tok9", 99)]
      "tok9" "npw" (by decide) (by decide)).2 (some "tok9") (some "npw") (by decide)⟩

end HR
